import Mathlib

/-!
Verification of the client-side domain-state synchronization layer and the
derived-metrics functions of the Smart Finance Advisor frontend.

Sources embedded:
- transport client `src/finance_frontend/src/api/client.js`
- domain store `src/finance_frontend/src/store/useFinanceStore.js`
- derived metrics and formatters of the Goals, Budgets, Dashboard,
  Insights and Transactions pages

Modelling conventions: JavaScript numbers are rationals (`ℚ`); parsed JSON
bodies are a small inductive carrying exactly the parts the code inspects;
asynchronous store actions are explicit state-transformer functions whose
observable states are the store states at event-loop yield points (each
synchronous run-to-completion segment between two `await`s of an action is
one atomic transition, which is the granularity at which the UI and any
other task can observe the store).
-/

namespace FinanceSpec

/-! ### Transport client (`api/client.js`) -/

/-- Parsed response body as inspected by `request`: raw text for non-JSON
responses, or a JSON object of which the code reads only the `message`,
`detail` and `error` fields (strings per the API contract). `Option BodyData`
with `none` stands for a `null` body or a swallowed parse failure. -/
inductive BodyData where
  | text (s : String)
  | obj (message detail error : Option String)
deriving DecidableEq, Repr

/-- Truthiness filter for an optional string field: a missing field and the
empty string are falsy, any other string is truthy. -/
def truthyStr : Option String → Option String
  | some s => if s = "" then none else some s
  | none => none

/-- Truthiness of the parsed `data` value: `null` and the empty text are
falsy, objects and nonempty text truthy. -/
def truthyData : Option BodyData → Bool
  | none => false
  | some (.text s) => s != ""
  | some (.obj _ _ _) => true

/-- The chain `data && (data.message || data.detail || data.error)` of
`request` (client.js line 84): the first present, nonempty string field of
an object body; `none` for text bodies and absent bodies. -/
def serverMessage : Option BodyData → Option String
  | some (.obj m d e) => (truthyStr m <|> truthyStr d <|> truthyStr e)
  | _ => none

/-- Normalized transport error `{message, status, details}`. -/
structure NormError where
  message : String
  status : Nat
  details : Option BodyData
deriving DecidableEq, Repr

/-- JavaScript exception value as inspected by `normalizeError`: its `name`;
its `message` (the empty string standing for an absent or empty, hence
falsy, field); its `status` field (`0` standing for an absent or zero, hence
falsy, field); its `details` field; whether the value is an object; and its
`String(e)` representation. -/
structure JsError where
  name : String
  message : String
  status : Nat
  details : Option BodyData
  isObject : Bool
  stringRepr : String
deriving DecidableEq, Repr

/-- Embedding of `normalizeError` (client.js lines 37-45). -/
def normalizeError (e : JsError) : NormError :=
  if e.name = "AbortError" then
    { message := "Request aborted", status := 0, details := none }
  else if e.isObject && e.message != "" then
    { message := e.message, status := e.status, details := e.details }
  else
    { message := e.stringRepr, status := 0, details := none }

/-- Error object thrown by `request` on a non-success HTTP status
(client.js lines 82-88): message prefers a truthy server field and falls
back to the generic text; `details` is `data || null`. -/
def httpError (status : Nat) (data : Option BodyData) : NormError :=
  { message := (serverMessage data).getD ("Request failed with status " ++ toString status),
    status := status,
    details := if truthyData data then data else none }

/-- Outcome of the `fetch` call inside `request`: the promise rejected with
an exception, or a response arrived carrying an HTTP status and a parsed
body. -/
inductive FetchOutcome where
  | threw (e : JsError)
  | response (status : Nat) (data : Option BodyData)
deriving DecidableEq, Repr

/-- The `res.ok` predicate of the Fetch API: status in the inclusive range
200 to 299. -/
def resOk (status : Nat) : Bool :=
  decide (200 ≤ status ∧ status ≤ 299)

/-- Embedding of the result of `request` (client.js lines 50-91): a rejected
`fetch` rejects with the normalized exception, a non-success status rejects
with `httpError`, and a success status resolves with the parsed body. -/
def requestResult (out : FetchOutcome) : Except NormError (Option BodyData) :=
  match out with
  | .threw e => .error (normalizeError e)
  | .response status data =>
      if resOk status then .ok data else .error (httpError status data)

/-- Exceptions the Fetch API actually produces on rejection: an `AbortError`
`DOMException`, or a connection-level `TypeError`, which is an object with a
nonempty `message` and no `status` or `details` fields. -/
def PlatformFetchError (e : JsError) : Prop :=
  e.name = "AbortError" ∨
    (e.name ≠ "AbortError" ∧ e.isObject = true ∧ e.message ≠ "" ∧
      e.status = 0 ∧ e.details = none)

/-! ### Derived metrics -/

/-- Utilization tier of a budget-summary row (Budgets page, line 152 of the
page source): `pct > 90 ? 'danger' : pct >= 70 ? 'warn' : 'success'`. -/
def utilizationTier (pct : ℚ) : String :=
  if pct > 90 then "danger" else if pct ≥ 70 then "warn" else "success"

/-- One-decimal rounding as performed by `Number(x.toFixed(1))` on the
nonnegative values arising here (round half away from zero, which is round
half up for nonnegative input). -/
def round1 (q : ℚ) : ℚ :=
  (⌊q * 10 + 1 / 2⌋ : ℚ) / 10

/-- Embedding of `computeProgress` (Goals.js lines 581-587), returning the
`pct` field of the record the source builds. -/
def computeProgress (current target : ℚ) : ℚ :=
  if target ≤ 0 then 0
  else round1 (max 0 (min 100 (current / target * 100)))

/-- Goal entity fields used by the Goals page. -/
structure Goal where
  id : String
  name : String
  current_amount : ℚ
  target_amount : ℚ
deriving DecidableEq, Repr

/-- Goal-plan projection item delivered by the goals-plan endpoint; the join
reads only `id`. -/
structure PlanItem where
  id : String
  name : String
  status : String
deriving DecidableEq, Repr

/-- Embedding of the `planById` map built inside `goalsWithPlan` (Goals.js
lines 48-49): `forEach` insertion into a `Map`, a later item with the same
id overwriting an earlier one; `get` of an absent key yields nothing. -/
def planById (plans : List PlanItem) : String → Option PlanItem :=
  plans.foldl (fun m p => fun k => if k = p.id then some p else m k) (fun _ => none)

/-- A goal joined with its plan item, the `{...g, plan}` record of Goals.js
lines 50-53. -/
structure GoalWithPlan where
  goal : Goal
  plan : Option PlanItem
deriving DecidableEq, Repr

/-- Embedding of `goalsWithPlan` (Goals.js lines 46-54): the empty list when
there are no goals, otherwise each goal paired with the matching plan item
(`planById.get(g.id) || null`). -/
def goalsWithPlan (goals : List Goal) (plans : List PlanItem) : List GoalWithPlan :=
  if goals = [] then []
  else goals.map (fun g => { goal := g, plan := planById plans g.id })

/-! ### Currency and percent formatters (per-page helpers) -/

/-- JavaScript value shapes passed to the page formatters: a finite number,
`NaN`, `null`, or `undefined`. -/
inductive JsVal where
  | num (q : ℚ)
  | nan
  | jsNull
  | undef
deriving DecidableEq, Repr

/-- The `typeof v === 'number'` test; `NaN` has type number. -/
def isNumberType : JsVal → Bool
  | .num _ => true
  | .nan => true
  | _ => false

/-- The `Number.isNaN(v)` test. -/
def jsIsNaN : JsVal → Bool
  | .nan => true
  | _ => false

/-- The `Number(v)` coercion on the modelled value shapes, with `none`
standing for `NaN`: `Number(null) = 0` and `Number(undefined) = NaN`. -/
def jsToNumber : JsVal → Option ℚ
  | .num q => some q
  | .nan => none
  | .jsNull => some 0
  | .undef => none

/-- Two-decimal fixed rendering of a nonnegative rational (digit grouping
separators omitted; they never matter to the verified properties). -/
def fixed2 (q : ℚ) : String :=
  toString ((⌊q * 100 + 1 / 2⌋).toNat / 100) ++ "." ++
    (if (⌊q * 100 + 1 / 2⌋).toNat % 100 < 10 then "0" else "") ++
    toString ((⌊q * 100 + 1 / 2⌋).toNat % 100)

/-- Model of the host `Intl.NumberFormat` currency formatter for a USD
currency code on an en-US locale: a finite number renders as a dollar
amount; `NaN` renders through the locale NaN symbol (ECMA-402), producing
the string containing NaN. -/
def intlCurrencyUSD : Option ℚ → String
  | none => "$NaN"
  | some q => if q < 0 then "-$" ++ fixed2 (-q) else "$" ++ fixed2 q

/-- Embedding of `formatCurrency` of the Goals page (Goals.js lines
568-575); the Budgets page defines the identical function. The `catch`
branch of the source is unreachable because the fixed currency code USD is
valid, so the model has no fallback path. -/
def formatCurrencyGoals (v : JsVal) : String :=
  if !isNumberType v || jsIsNaN v then "—"
  else intlCurrencyUSD (jsToNumber v)

/-- Embedding of `formatCurrency` of the Dashboard page: only the
`typeof n !== 'number'` guard is present, so `NaN` reaches the host
currency formatter. -/
def formatCurrencyDashboard (v : JsVal) : String :=
  if !isNumberType v then "—"
  else intlCurrencyUSD (jsToNumber v)

/-- Embedding of `formatCurrency` of the Insights page: the input is first
coerced with `Number(n)` and only the coercion result is tested for `NaN`,
so `null` formats as zero dollars. -/
def formatCurrencyInsights (v : JsVal) : String :=
  match jsToNumber v with
  | none => "—"
  | some q => intlCurrencyUSD (some q)

/-- Embedding of `formatCurrency` of the Transactions page: the guard
matches the Goals page, but the placeholder literal in the source file is
the doubly encoded byte sequence for the em dash, not the em dash itself. -/
def formatCurrencyTransactions (v : JsVal) : String :=
  if !isNumberType v || jsIsNaN v then "‚Äî"
  else intlCurrencyUSD (jsToNumber v)

/-- Result of `formatPercent` (Budgets and Dashboard pages): the em-dash
placeholder, or the input rounded to one decimal (returned as a number by
the source and rendered by the caller). -/
inductive PercentOut where
  | placeholder
  | value (q : ℚ)
deriving DecidableEq, Repr

/-- Embedding of `formatPercent` (identical on the Budgets and Dashboard
pages). -/
def formatPercent (v : JsVal) : PercentOut :=
  if !isNumberType v || jsIsNaN v then .placeholder
  else
    match jsToNumber v with
    | some q => .value (round1 q)
    | none => .placeholder

/-! ### Domain store (`store/useFinanceStore.js`)

The store is generic in the payload type `α` delivered by the transport
layer: the store code never inspects payloads, it only caches them.
Collection endpoints deliver `Option (List α)` (a `null` payload is
possible) which the store caches through `data || []`; single-resource
endpoints deliver `Option α`, cached as received. -/

/-- Keys of the `loading` and `errors` records (store lines 20-39). -/
inductive Domain where
  | summary
  | transactions
  | budgets
  | goals
  | alerts
  | advice
  | goalsPlan
  | seed
deriving DecidableEq, Fintype, Repr

/-- Store state: the per-domain loading flags and error slots plus the data
slices (store lines 20-51). -/
structure StoreState (α : Type) where
  loading : Domain → Bool
  errors : Domain → Option NormError
  summary : Option α
  behaviors : Option α
  alerts : Option α
  savingsAdvice : Option α
  goalsPlan : Option α
  transactions : List α
  budgets : List α
  budgetSummary : Option α
  goals : List α

/-- Initial store state (store lines 20-51): every flag false, every error
slot empty, collections empty, single resources `null`. -/
def initState (α : Type) : StoreState α :=
  { loading := fun _ => false
    errors := fun _ => none
    summary := none
    behaviors := none
    alerts := none
    savingsAdvice := none
    goalsPlan := none
    transactions := []
    budgets := []
    budgetSummary := none
    goals := [] }

variable {α : Type}

/-- Helper `_setLoading` (store lines 54-55). -/
def _setLoading (s : StoreState α) (k : Domain) (v : Bool) : StoreState α :=
  { s with loading := Function.update s.loading k v }

/-- Helper `_setError` (store lines 56-57). -/
def _setError (s : StoreState α) (k : Domain) (v : Option NormError) : StoreState α :=
  { s with errors := Function.update s.errors k v }

/-- Entry segment shared by every fetch-style and seed action:
`_setLoading(key, true)` then `_setError(key, null)`, executed synchronously
before the first `await`. -/
def fetchStart (k : Domain) (s : StoreState α) : StoreState α :=
  _setError (_setLoading s k true) k none

/-- Failure segment shared by every fetch-style and seed action: the `catch`
block stores the thrown error, then the `finally` block clears the loading
flag, with no `await` in between. -/
def fetchFail (k : Domain) (e : NormError) (s : StoreState α) : StoreState α :=
  _setLoading (_setError s k (some e)) k false

/-- Success segment of `fetchSummary` (store lines 61-75):
`set({summary: data})` then the `finally` clears the loading flag, with no
`await` in between. -/
def fetchSummaryDone (d : Option α) (s : StoreState α) : StoreState α :=
  _setLoading { s with summary := d } .summary false

/-- Success segment of `fetchBehaviors` (store lines 78-92): the data goes
to the `behaviors` slice but the loading flag used is the `summary` one. -/
def fetchBehaviorsDone (d : Option α) (s : StoreState α) : StoreState α :=
  _setLoading { s with behaviors := d } .summary false

/-- Success segment of `fetchOverspendingAlerts` (store lines 96-110). -/
def fetchAlertsDone (d : Option α) (s : StoreState α) : StoreState α :=
  _setLoading { s with alerts := d } .alerts false

/-- Success segment of `fetchSavingsAdvice` (store lines 113-127). -/
def fetchAdviceDone (d : Option α) (s : StoreState α) : StoreState α :=
  _setLoading { s with savingsAdvice := d } .advice false

/-- Success segment of `fetchGoalsPlan` (store lines 130-144). -/
def fetchGoalsPlanDone (d : Option α) (s : StoreState α) : StoreState α :=
  _setLoading { s with goalsPlan := d } .goalsPlan false

/-- Success segment of `fetchTransactions` (store lines 148-162):
`set({transactions: data || []})` then the `finally`. -/
def fetchTransactionsDone (d : Option (List α)) (s : StoreState α) : StoreState α :=
  _setLoading { s with transactions := d.getD [] } .transactions false

/-- Success segment of `fetchBudgets` (store lines 197-211). -/
def fetchBudgetsDone (d : Option (List α)) (s : StoreState α) : StoreState α :=
  _setLoading { s with budgets := d.getD [] } .budgets false

/-- Success segment of `fetchBudgetSummary` (store lines 221-235): the data
goes to the `budgetSummary` slice but the loading flag used is the `budgets`
one, and no `|| []` default is applied. -/
def fetchBudgetSummaryDone (d : Option α) (s : StoreState α) : StoreState α :=
  _setLoading { s with budgetSummary := d } .budgets false

/-- Success segment of `fetchGoals` (store lines 239-253). -/
def fetchGoalsDone (d : Option (List α)) (s : StoreState α) : StoreState α :=
  _setLoading { s with goals := d.getD [] } .goals false

/-- Final segment of a successful `seedDemoLoad` (store lines 281-299):
after the best-effort refresh settles only the `finally` clears the seed
loading flag. -/
def seedLoadDone (s : StoreState α) : StoreState α :=
  _setLoading s .seed false

/-- Success segment of `seedDemoClear` (store lines 302-317):
`set({transactions: []})` then the `finally` clears the seed loading
flag. -/
def seedClearDone (s : StoreState α) : StoreState α :=
  _setLoading { s with transactions := [] } .seed false

/-- Refresh segment shared by `createTx`, `updateTx` and `deleteTx` (store
lines 171-193): once the parameterless `api.listTransactions()` re-fetch
resolves, `set({transactions: items || []})`. -/
def txWriteRefresh (items : Option (List α)) (s : StoreState α) : StoreState α :=
  { s with transactions := items.getD [] }

/-- Refresh segment shared by `createGoal`, `updateGoal` and `deleteGoal`
(store lines 256-277): once `api.listGoals()` resolves,
`set({goals: items || []})`. -/
def goalWriteRefresh (items : Option (List α)) (s : StoreState α) : StoreState α :=
  { s with goals := items.getD [] }

/-- Sequential run of a fetch-style action that uses loading and error key
`k` and success segment `done`, with the given transport outcome and no
other action interleaved: the pair of the final state and the action result
(`Except.error` being the re-thrown rejection). -/
def fetchRun (k : Domain) (done : β → StoreState α → StoreState α)
    (s : StoreState α) (out : Except NormError β) :
    StoreState α × Except NormError β :=
  match out with
  | .ok d => (done d (fetchStart k s), .ok d)
  | .error e => (fetchFail k e (fetchStart k s), .error e)

/-- Run of `fetchSummary` (store lines 61-75). -/
def fetchSummaryRun (s : StoreState α) (out : Except NormError (Option α)) :
    StoreState α × Except NormError (Option α) :=
  fetchRun .summary fetchSummaryDone s out

/-- Run of `fetchBehaviors` (store lines 78-92); its loading and error key
is `summary`. -/
def fetchBehaviorsRun (s : StoreState α) (out : Except NormError (Option α)) :
    StoreState α × Except NormError (Option α) :=
  fetchRun .summary fetchBehaviorsDone s out

/-- Run of `fetchOverspendingAlerts` (store lines 96-110). -/
def fetchAlertsRun (s : StoreState α) (out : Except NormError (Option α)) :
    StoreState α × Except NormError (Option α) :=
  fetchRun .alerts fetchAlertsDone s out

/-- Run of `fetchSavingsAdvice` (store lines 113-127); its key is
`advice`. -/
def fetchAdviceRun (s : StoreState α) (out : Except NormError (Option α)) :
    StoreState α × Except NormError (Option α) :=
  fetchRun .advice fetchAdviceDone s out

/-- Run of `fetchGoalsPlan` (store lines 130-144). -/
def fetchGoalsPlanRun (s : StoreState α) (out : Except NormError (Option α)) :
    StoreState α × Except NormError (Option α) :=
  fetchRun .goalsPlan fetchGoalsPlanDone s out

/-- Run of `fetchTransactions` (store lines 148-162). -/
def fetchTransactionsRun (s : StoreState α) (out : Except NormError (Option (List α))) :
    StoreState α × Except NormError (Option (List α)) :=
  fetchRun .transactions fetchTransactionsDone s out

/-- Run of `fetchBudgets` (store lines 197-211). -/
def fetchBudgetsRun (s : StoreState α) (out : Except NormError (Option (List α))) :
    StoreState α × Except NormError (Option (List α)) :=
  fetchRun .budgets fetchBudgetsDone s out

/-- Run of `fetchBudgetSummary` (store lines 221-235); its loading and error
key is `budgets`. -/
def fetchBudgetSummaryRun (s : StoreState α) (out : Except NormError (Option α)) :
    StoreState α × Except NormError (Option α) :=
  fetchRun .budgets fetchBudgetSummaryDone s out

/-- Run of `fetchGoals` (store lines 239-253). -/
def fetchGoalsRun (s : StoreState α) (out : Except NormError (Option (List α))) :
    StoreState α × Except NormError (Option (List α)) :=
  fetchRun .goals fetchGoalsDone s out

/-- Run of `createTx` (store lines 171-177): the mutating call, then on its
success the unconditional parameterless list re-fetch; no loading flag or
error slot is touched, and a rejection of either call propagates to the
caller with the store unchanged. -/
def createTxRun (s : StoreState α) (createOut : Except NormError (Option α))
    (listOut : Except NormError (Option (List α))) :
    StoreState α × Except NormError (Option α) :=
  match createOut with
  | .error e => (s, .error e)
  | .ok res =>
    match listOut with
    | .error e => (s, .error e)
    | .ok items => (txWriteRefresh items s, .ok res)

/-- Run of `updateTx` (store lines 180-185), identical in shape to
`createTx`. -/
def updateTxRun (s : StoreState α) (updateOut : Except NormError (Option α))
    (listOut : Except NormError (Option (List α))) :
    StoreState α × Except NormError (Option α) :=
  match updateOut with
  | .error e => (s, .error e)
  | .ok res =>
    match listOut with
    | .error e => (s, .error e)
    | .ok items => (txWriteRefresh items s, .ok res)

/-- Run of `deleteTx` (store lines 188-193): the delete call, the
parameterless list re-fetch, then the literal result `true`. -/
def deleteTxRun (s : StoreState α) (deleteOut : Except NormError (Option α))
    (listOut : Except NormError (Option (List α))) :
    StoreState α × Except NormError Bool :=
  match deleteOut with
  | .error e => (s, .error e)
  | .ok _ =>
    match listOut with
    | .error e => (s, .error e)
    | .ok items => (txWriteRefresh items s, .ok true)

/-- Run of `createGoal` (store lines 256-261). -/
def createGoalRun (s : StoreState α) (createOut : Except NormError (Option α))
    (listOut : Except NormError (Option (List α))) :
    StoreState α × Except NormError (Option α) :=
  match createOut with
  | .error e => (s, .error e)
  | .ok res =>
    match listOut with
    | .error e => (s, .error e)
    | .ok items => (goalWriteRefresh items s, .ok res)

/-- Run of `updateGoal` (store lines 264-269). -/
def updateGoalRun (s : StoreState α) (updateOut : Except NormError (Option α))
    (listOut : Except NormError (Option (List α))) :
    StoreState α × Except NormError (Option α) :=
  match updateOut with
  | .error e => (s, .error e)
  | .ok res =>
    match listOut with
    | .error e => (s, .error e)
    | .ok items => (goalWriteRefresh items s, .ok res)

/-- Run of `deleteGoal` (store lines 272-277). -/
def deleteGoalRun (s : StoreState α) (deleteOut : Except NormError (Option α))
    (listOut : Except NormError (Option (List α))) :
    StoreState α × Except NormError Bool :=
  match deleteOut with
  | .error e => (s, .error e)
  | .ok _ =>
    match listOut with
    | .error e => (s, .error e)
    | .ok items => (goalWriteRefresh items s, .ok true)

/-- Run of `upsertBudget` (store lines 214-218): only the mutating call; no
re-fetch, no slice write, no loading flag, no error slot. -/
def upsertBudgetRun (s : StoreState α) (out : Except NormError (Option α)) :
    StoreState α × Except NormError (Option α) :=
  match out with
  | .error e => (s, .error e)
  | .ok res => (s, .ok res)

/-- Tuple of every data slice of the store, used to state frame
properties. -/
def dataSlices (s : StoreState α) :
    Option α × Option α × Option α × Option α × Option α ×
      List α × List α × Option α × List α :=
  (s.summary, s.behaviors, s.alerts, s.savingsAdvice, s.goalsPlan,
    s.transactions, s.budgets, s.budgetSummary, s.goals)

/-- One observable transition of the store: a synchronous run-to-completion
segment of one of the store actions, i.e. the code an action executes
between two event-loop yield points. Arbitrary interleavings of concurrent
actions are arbitrary sequences of these transitions. `upsertBudget`
contributes no transition because it never writes the store. -/
inductive Step (α : Type) : StoreState α → StoreState α → Prop where
  | fetchSummaryStart (s) : Step α s (fetchStart .summary s)
  | fetchSummaryOk (d : Option α) (s) : Step α s (fetchSummaryDone d s)
  | fetchSummaryErr (e) (s) : Step α s (fetchFail .summary e s)
  | fetchBehaviorsStart (s) : Step α s (fetchStart .summary s)
  | fetchBehaviorsOk (d : Option α) (s) : Step α s (fetchBehaviorsDone d s)
  | fetchBehaviorsErr (e) (s) : Step α s (fetchFail .summary e s)
  | fetchAlertsStart (s) : Step α s (fetchStart .alerts s)
  | fetchAlertsOk (d : Option α) (s) : Step α s (fetchAlertsDone d s)
  | fetchAlertsErr (e) (s) : Step α s (fetchFail .alerts e s)
  | fetchAdviceStart (s) : Step α s (fetchStart .advice s)
  | fetchAdviceOk (d : Option α) (s) : Step α s (fetchAdviceDone d s)
  | fetchAdviceErr (e) (s) : Step α s (fetchFail .advice e s)
  | fetchGoalsPlanStart (s) : Step α s (fetchStart .goalsPlan s)
  | fetchGoalsPlanOk (d : Option α) (s) : Step α s (fetchGoalsPlanDone d s)
  | fetchGoalsPlanErr (e) (s) : Step α s (fetchFail .goalsPlan e s)
  | fetchTransactionsStart (s) : Step α s (fetchStart .transactions s)
  | fetchTransactionsOk (d : Option (List α)) (s) : Step α s (fetchTransactionsDone d s)
  | fetchTransactionsErr (e) (s) : Step α s (fetchFail .transactions e s)
  | fetchBudgetsStart (s) : Step α s (fetchStart .budgets s)
  | fetchBudgetsOk (d : Option (List α)) (s) : Step α s (fetchBudgetsDone d s)
  | fetchBudgetsErr (e) (s) : Step α s (fetchFail .budgets e s)
  | fetchBudgetSummaryStart (s) : Step α s (fetchStart .budgets s)
  | fetchBudgetSummaryOk (d : Option α) (s) : Step α s (fetchBudgetSummaryDone d s)
  | fetchBudgetSummaryErr (e) (s) : Step α s (fetchFail .budgets e s)
  | fetchGoalsStart (s) : Step α s (fetchStart .goals s)
  | fetchGoalsOk (d : Option (List α)) (s) : Step α s (fetchGoalsDone d s)
  | fetchGoalsErr (e) (s) : Step α s (fetchFail .goals e s)
  | seedLoadStart (s) : Step α s (fetchStart .seed s)
  | seedLoadOk (s) : Step α s (seedLoadDone s)
  | seedLoadErr (e) (s) : Step α s (fetchFail .seed e s)
  | seedClearStart (s) : Step α s (fetchStart .seed s)
  | seedClearOk (s) : Step α s (seedClearDone s)
  | seedClearErr (e) (s) : Step α s (fetchFail .seed e s)
  | txWrite (items : Option (List α)) (s) : Step α s (txWriteRefresh items s)
  | goalWrite (items : Option (List α)) (s) : Step α s (goalWriteRefresh items s)

/-- States of the store observable in some execution: reachable from the
initial state by a sequence of observable transitions. -/
def Reachable (s : StoreState α) : Prop :=
  Relation.ReflTransGen (Step α) (initState α) s

/-- Per-domain exclusion invariant: while a domain is loading its error slot
is empty. -/
def LoadErrExclusive (s : StoreState α) : Prop :=
  ∀ k : Domain, s.loading k = true → s.errors k = none

/-- Parsed body of the spec scenario response: the JSON object
`{message: "db down"}`. -/
def dbBody : BodyData := .obj (some "db down") none none

/-- Normalized error of a 500 response carrying `dbBody`. -/
def dbErr : NormError := httpError 500 (some dbBody)

/-- Run of `seedDemoClear` (store lines 302-317). -/
def seedDemoClearRun (s : StoreState α) (out : Except NormError (Option α)) :
    StoreState α × Except NormError (Option α) :=
  match out with
  | .ok res => (seedClearDone (fetchStart .seed s), .ok res)
  | .error e => (fetchFail .seed e (fetchStart .seed s), .error e)

/-- Run of `seedDemoLoad` (store lines 281-299) with the given outcomes of
the seed call and of the two best-effort refreshes, the refreshes taken in
program order: a successful seed triggers the two refreshes through
`Promise.allSettled`, whose failures are swallowed; a failed seed stores
the error under the seed key and re-throws. -/
def seedDemoLoadRun (s : StoreState α) (out : Except NormError (Option α))
    (txOut goalsOut : Except NormError (Option (List α))) :
    StoreState α × Except NormError (Option α) :=
  match out with
  | .error e => (fetchFail .seed e (fetchStart .seed s), .error e)
  | .ok res =>
    (seedLoadDone (fetchGoalsRun (fetchTransactionsRun (fetchStart .seed s) txOut).1 goalsOut).1,
      .ok res)

/-! ### Helper lemmas -/

theorem dollarPrepend_ne_zero (s : String) : ("$" ++ s) ≠ "0" := by
  intro h
  have h2 : ("$" ++ s).data = "0".data := congrArg String.data h
  rw [String.data_append] at h2
  have h3 : '$' = '0' := (List.cons_eq_cons.mp h2).1
  exact absurd h3 (by decide)

theorem negDollarPrepend_ne_zero (s : String) : ("-$" ++ s) ≠ "0" := by
  intro h
  have h2 : ("-$" ++ s).data = "0".data := congrArg String.data h
  rw [String.data_append] at h2
  have h3 : '-' = '0' := (List.cons_eq_cons.mp h2).1
  exact absurd h3 (by decide)

theorem intlCurrencyUSD_ne_zero (o : Option ℚ) : intlCurrencyUSD o ≠ "0" := by
  match o with
  | none => decide
  | some q =>
    show (if q < 0 then "-$" ++ fixed2 (-q) else "$" ++ fixed2 q) ≠ "0"
    by_cases h : q < 0
    · rw [if_pos h]; exact negDollarPrepend_ne_zero _
    · rw [if_neg h]; exact dollarPrepend_ne_zero _

theorem statusFallback_ne_empty (t : String) :
    ("Request failed with status " ++ t) ≠ "" := by
  intro h
  have h2 : ("Request failed with status " ++ t).data = "".data := congrArg String.data h
  rw [String.data_append] at h2
  have h3 := List.append_eq_nil.mp h2
  have h4 : ("Request failed with status ").data ≠ [] := by decide
  exact h4 h3.1

theorem truthyStr_some (o : Option String) (s : String) :
    truthyStr o = some s → s ≠ "" := by
  match o with
  | none => intro h; exact absurd h (by simp [truthyStr])
  | some t =>
    intro h
    by_cases ht : t = ""
    · simp [truthyStr, ht] at h
    · simp only [truthyStr, if_neg ht, Option.some.injEq] at h
      exact h ▸ ht

theorem serverMessage_ne_empty (data : Option BodyData) (m : String) :
    serverMessage data = some m → m ≠ "" := by
  intro h
  match data with
  | none => simp [serverMessage] at h
  | some (.text s) => simp [serverMessage] at h
  | some (.obj a b c) =>
    simp only [serverMessage] at h
    rcases (Option.orElse_eq_some _ _ _).mp h with h1 | ⟨_, h1⟩
    · exact truthyStr_some a m h1
    · rcases (Option.orElse_eq_some _ _ _).mp h1 with h2 | ⟨_, h2⟩
      · exact truthyStr_some b m h2
      · exact truthyStr_some c m h2

theorem planById_aux_mem (ps : List PlanItem) (k : String) (p : PlanItem) :
    ∀ m : String → Option PlanItem,
      ps.foldl (fun m p => fun j => if j = p.id then some p else m j) m k = some p →
      (p ∈ ps ∧ p.id = k) ∨ m k = some p := by
  induction ps with
  | nil => intro m h; exact Or.inr h
  | cons a tl ih =>
    intro m h
    rcases ih _ h with h1 | h2
    · exact Or.inl ⟨List.mem_cons_of_mem _ h1.1, h1.2⟩
    · change (if k = a.id then some a else m k) = some p at h2
      by_cases hk : k = a.id
      · rw [if_pos hk] at h2
        have hap : a = p := Option.some.inj h2
        exact Or.inl ⟨hap ▸ List.mem_cons_self a tl, by rw [← hap, hk]⟩
      · rw [if_neg hk] at h2
        exact Or.inr h2

theorem planById_aux_skip (ps : List PlanItem) (k : String) :
    (∀ q ∈ ps, q.id ≠ k) → ∀ m : String → Option PlanItem,
      ps.foldl (fun m p => fun j => if j = p.id then some p else m j) m k = m k := by
  induction ps with
  | nil => intro _ m; rfl
  | cons a tl ih =>
    intro hq m
    have htl : ∀ q ∈ tl, q.id ≠ k := fun q hmem => hq q (List.mem_cons_of_mem _ hmem)
    have hka : k ≠ a.id := fun h => hq a (List.mem_cons_self a tl) h.symm
    rw [List.foldl_cons, ih htl]
    show (if k = a.id then some a else m k) = m k
    exact if_neg hka

theorem planById_aux_unique (ps : List PlanItem) (k : String) (p : PlanItem) :
    (ps.map PlanItem.id).Nodup → p ∈ ps → p.id = k →
    ∀ m : String → Option PlanItem,
      ps.foldl (fun m p => fun j => if j = p.id then some p else m j) m k = some p := by
  induction ps with
  | nil => intro _ hmem; exact absurd hmem (List.not_mem_nil p)
  | cons a tl ih =>
    intro hnd hmem hid m
    rw [List.map_cons, List.nodup_cons] at hnd
    rcases List.mem_cons.mp hmem with rfl | htl
    · have hskip : ∀ q ∈ tl, q.id ≠ k := by
        intro q hq hcon
        exact hnd.1 (hid ▸ hcon ▸ List.mem_map_of_mem PlanItem.id hq)
      rw [List.foldl_cons, planById_aux_skip tl k hskip]
      show (if k = p.id then some p else m k) = some p
      exact if_pos hid.symm
    · rw [List.foldl_cons]
      exact ih hnd.2 htl hid _

theorem planById_mem (ps : List PlanItem) (k : String) (p : PlanItem) :
    planById ps k = some p → p ∈ ps ∧ p.id = k := by
  intro h
  rcases planById_aux_mem ps k p _ h with h1 | h2
  · exact h1
  · exact absurd h2 (by simp)

theorem planById_none (ps : List PlanItem) (k : String) :
    (∀ q ∈ ps, q.id ≠ k) → planById ps k = none := by
  intro h
  unfold planById
  rw [planById_aux_skip ps k h]

theorem planById_unique (ps : List PlanItem) (k : String) (p : PlanItem) :
    (ps.map PlanItem.id).Nodup → p ∈ ps → p.id = k → planById ps k = some p :=
  fun hnd hmem hid => planById_aux_unique ps k p hnd hmem hid _

/-! ### Claims about the derived metrics and formatters -/

/-- C5: for every budget-summary utilization percentage p the computed tier
is danger exactly when p > 90, success exactly when p < 70, and warn when
70 ≤ p ≤ 90; in particular 95 gives danger, 70 gives warn and 69.9 gives
success. -/
theorem utilizationTier_boundaries (p : ℚ) :
    (utilizationTier p = "danger" ↔ p > 90) ∧
    (utilizationTier p = "success" ↔ p < 70) ∧
    (70 ≤ p → p ≤ 90 → utilizationTier p = "warn") ∧
    utilizationTier 95 = "danger" ∧
    utilizationTier 70 = "warn" ∧
    utilizationTier (699 / 10) = "success" := by
  unfold utilizationTier
  refine ⟨⟨?_, ?_⟩, ⟨?_, ?_⟩, ?_, ?_, ?_, ?_⟩
  · intro h
    by_contra hp
    rw [if_neg hp] at h
    by_cases h70 : p ≥ 70
    · rw [if_pos h70] at h; exact absurd h (by decide)
    · rw [if_neg h70] at h; exact absurd h (by decide)
  · intro h; rw [if_pos h]
  · intro h
    by_cases hp : p > 90
    · rw [if_pos hp] at h; exact absurd h (by decide)
    · rw [if_neg hp] at h
      by_cases h70 : p ≥ 70
      · rw [if_pos h70] at h; exact absurd h (by decide)
      · exact lt_of_not_le h70
  · intro h
    rw [if_neg (by linarith : ¬ p > 90), if_neg (not_le.mpr h)]
  · intro h1 h2
    rw [if_neg (not_lt.mpr h2), if_pos h1]
  · norm_num
  · norm_num
  · norm_num

/-- C5 witness: the theorem applied at the concrete inputs 80 and 95. -/
theorem utilizationTier_boundaries_witness :
    utilizationTier 80 = "warn" ∧ utilizationTier 95 = "danger" :=
  ⟨(utilizationTier_boundaries 80).2.2.1 (by norm_num) (by norm_num),
    (utilizationTier_boundaries 95).1.mpr (by norm_num)⟩

theorem fixed2_zero : fixed2 0 = "0.00" := by
  have h : (⌊(0 : ℚ) * 100 + 1 / 2⌋ : ℤ) = 0 := by norm_num
  unfold fixed2
  rw [h]
  rfl

theorem intlCurrencyUSD_zero : intlCurrencyUSD (some 0) = "$0.00" := by
  show (if (0 : ℚ) < 0 then "-$" ++ fixed2 (-0) else "$" ++ fixed2 0) = "$0.00"
  rw [if_neg (by norm_num : ¬ (0 : ℚ) < 0), fixed2_zero]
  rfl

/-- C9 counterexample: on the Dashboard page `formatCurrency(NaN)` renders
through the host currency formatter as a string containing NaN, not as the
em-dash placeholder, because only the type of the input is guarded there. -/
theorem formatCurrencyDashboard_nan_cex :
    formatCurrencyDashboard JsVal.nan = "$NaN" ∧
    formatCurrencyDashboard JsVal.nan ≠ "—" := by
  constructor <;> decide

/-- C9 (amended): on the Goals and Budgets pages a non-number-typed or NaN
input renders as the em dash, and the percent formatters return their
placeholder on the same inputs; on the Dashboard only non-number-typed
inputs render the em dash while NaN reaches the host formatter and renders
as a NaN-containing string; on the Insights page the input is coerced with
Number() first, so null renders as zero dollars and only NaN-coercing
inputs render the em dash; on the Transactions page the guard matches Goals
but the placeholder literal is a doubly encoded em dash; no formatter ever
renders the bare string 0. -/
theorem formatters_placeholder (v : JsVal) :
    ((isNumberType v = false ∨ v = JsVal.nan) →
      formatCurrencyGoals v = "—" ∧ formatCurrencyTransactions v = "‚Äî" ∧
      formatPercent v = PercentOut.placeholder) ∧
    (isNumberType v = false → formatCurrencyDashboard v = "—") ∧
    formatCurrencyGoals v ≠ "0" ∧
    formatCurrencyDashboard v ≠ "0" ∧
    formatCurrencyInsights v ≠ "0" ∧
    formatCurrencyTransactions v ≠ "0" ∧
    formatCurrencyInsights JsVal.jsNull = "$0.00" ∧
    formatCurrencyInsights JsVal.nan = "—" ∧
    formatCurrencyInsights JsVal.undef = "—" ∧
    formatCurrencyDashboard JsVal.nan = "$NaN" := by
  have hgoal : ∀ w : JsVal, formatCurrencyGoals w ≠ "0" := by
    intro w
    unfold formatCurrencyGoals
    by_cases h : (!isNumberType w || jsIsNaN w) = true
    · rw [if_pos h]; decide
    · rw [if_neg h]; exact intlCurrencyUSD_ne_zero _
  have hdash : ∀ w : JsVal, formatCurrencyDashboard w ≠ "0" := by
    intro w
    unfold formatCurrencyDashboard
    by_cases h : (!isNumberType w) = true
    · rw [if_pos h]; decide
    · rw [if_neg h]; exact intlCurrencyUSD_ne_zero _
  have hins : ∀ w : JsVal, formatCurrencyInsights w ≠ "0" := by
    intro w
    unfold formatCurrencyInsights
    match jsToNumber w with
    | none => decide
    | some q => exact intlCurrencyUSD_ne_zero _
  have htx : ∀ w : JsVal, formatCurrencyTransactions w ≠ "0" := by
    intro w
    unfold formatCurrencyTransactions
    by_cases h : (!isNumberType w || jsIsNaN w) = true
    · rw [if_pos h]; decide
    · rw [if_neg h]; exact intlCurrencyUSD_ne_zero _
  refine ⟨?_, ?_, hgoal v, hdash v, hins v, htx v, intlCurrencyUSD_zero, by decide, by decide,
    by decide⟩
  · intro h
    have hb : (!isNumberType v || jsIsNaN v) = true := by
      rcases h with h | h
      · simp [h]
      · simp [h, jsIsNaN]
    exact ⟨by simp [formatCurrencyGoals, hb], by simp [formatCurrencyTransactions, hb],
      by simp [formatPercent, hb]⟩
  · intro h
    simp [formatCurrencyDashboard, h]

/-- C9 witness: the theorem applied at the concrete inputs `null` and
`undefined`. -/
theorem formatters_placeholder_witness :
    (formatCurrencyGoals JsVal.jsNull = "—" ∧
      formatCurrencyTransactions JsVal.jsNull = "‚Äî" ∧
      formatPercent JsVal.jsNull = PercentOut.placeholder) ∧
    formatCurrencyDashboard JsVal.undef = "—" :=
  ⟨(formatters_placeholder JsVal.jsNull).1 (Or.inl (by decide)),
    (formatters_placeholder JsVal.undef).2.1 (by decide)⟩

/-- C8: the goal/plan join attaches to each goal exactly the plan item whose
id equals the goal's id (stated for a plan list with no duplicate ids, the
form the server invariant guarantees; without that assumption the attached
item is still a matching member of the list), attaches the absent marker
when no plan item has that id, and never fabricates a plan entry; the goal
g1 with current 250 and target 1000 and an empty plan list yields the absent
marker and progress 25.0. -/
theorem goalsWithPlan_join (gs : List Goal) (ps : List PlanItem) :
    (∀ w ∈ goalsWithPlan gs ps,
      (∀ p, w.plan = some p → p ∈ ps ∧ p.id = w.goal.id) ∧
      ((∀ p ∈ ps, p.id ≠ w.goal.id) → w.plan = none) ∧
      ((ps.map PlanItem.id).Nodup → ∀ p ∈ ps, p.id = w.goal.id → w.plan = some p)) ∧
    goalsWithPlan [⟨"g1", "Emergency Fund", 250, 1000⟩] [] =
      [{ goal := ⟨"g1", "Emergency Fund", 250, 1000⟩, plan := none }] ∧
    computeProgress 250 1000 = 25 := by
  refine ⟨?_, by rfl, by norm_num [computeProgress, round1]⟩
  intro w hw
  unfold goalsWithPlan at hw
  by_cases hgs : gs = []
  · rw [if_pos hgs] at hw
    exact absurd hw (List.not_mem_nil w)
  · rw [if_neg hgs] at hw
    rcases List.mem_map.mp hw with ⟨g, _, rfl⟩
    refine ⟨?_, ?_, ?_⟩
    · intro p hp
      exact planById_mem ps g.id p hp
    · intro hnone
      exact planById_none ps g.id hnone
    · intro hnd p hmem hid
      exact planById_unique ps g.id p hnd hmem hid

/-- C8 witness: the theorem applied to the concrete goal list of the spec
scenario with a one-item plan list, discharging each hypothesis there. -/
theorem goalsWithPlan_join_witness :
    ({ goal := ⟨"g1", "Emergency Fund", 250, 1000⟩,
       plan := some ⟨"g1", "Emergency Fund", "on_track"⟩ } : GoalWithPlan).plan =
      some ⟨"g1", "Emergency Fund", "on_track"⟩ :=
  ((goalsWithPlan_join [⟨"g1", "Emergency Fund", 250, 1000⟩]
      [⟨"g1", "Emergency Fund", "on_track"⟩]).1
    { goal := ⟨"g1", "Emergency Fund", 250, 1000⟩,
      plan := some ⟨"g1", "Emergency Fund", "on_track"⟩ }
    (by simp [goalsWithPlan, planById])).2.2 (by decide)
    ⟨"g1", "Emergency Fund", "on_track"⟩ (by decide) (by decide)

/-- C6 counterexample: the one-decimal rounding makes the claimed
equivalence between pct = 100 and current ≥ target fail: a goal with
current 9996 and target 10000 has raw ratio 99.96 percent, which rounds to
100.0, although current < target. -/
theorem computeProgress_round_cex :
    computeProgress 9996 10000 = 100 ∧ (9996 : ℚ) < 10000 := by
  constructor
  · norm_num [computeProgress, round1]
  · norm_num

/-- C6 (amended): progress is the one-decimal rounding of
clamp(current/target*100, 0, 100) when the target is positive and 0
otherwise; for a positive target the result lies in [0, 100], current ≥
target forces 100, and the result is 100 exactly when the raw percentage is
at least 99.95 (the rounding lifts ratios within half of one decimal place
below the target to 100 as well). -/
theorem computeProgress_bounds (c t : ℚ) :
    (t ≤ 0 → computeProgress c t = 0) ∧
    (0 < t →
      computeProgress c t = round1 (max 0 (min 100 (c / t * 100))) ∧
      0 ≤ computeProgress c t ∧ computeProgress c t ≤ 100 ∧
      (computeProgress c t = 100 ↔ 1999 / 20 ≤ c / t * 100) ∧
      (t ≤ c → computeProgress c t = 100)) := by
  constructor
  · intro h
    simp [computeProgress, h]
  · intro ht
    have hnt : ¬ t ≤ 0 := not_le.mpr ht
    set r : ℚ := c / t * 100 with hr
    set x : ℚ := max 0 (min 100 r) with hx
    have hcp : computeProgress c t = round1 x := by
      simp [computeProgress, hnt]
    have hx0 : (0 : ℚ) ≤ x := le_max_left 0 _
    have hx100 : x ≤ 100 := max_le (by norm_num) (min_le_left _ _)
    have hfl0 : (0 : ℤ) ≤ ⌊x * 10 + 1 / 2⌋ := Int.floor_nonneg.mpr (by linarith)
    have hfl1000 : ⌊x * 10 + 1 / 2⌋ ≤ (1000 : ℤ) := by
      have h2 : ⌊x * 10 + 1 / 2⌋ ≤ ⌊(2001 : ℚ) / 2⌋ :=
        Int.floor_le_floor (by linarith)
      have h3 : (⌊(2001 : ℚ) / 2⌋ : ℤ) = 1000 := by norm_num
      omega
    have hround : round1 x = (⌊x * 10 + 1 / 2⌋ : ℚ) / 10 := rfl
    have hiff : computeProgress c t = 100 ↔ 1999 / 20 ≤ r := by
      rw [hcp, hround, div_eq_iff (by norm_num : (10 : ℚ) ≠ 0)]
      have hcast : ((⌊x * 10 + 1 / 2⌋ : ℤ) : ℚ) = 100 * 10 ↔
          ⌊x * 10 + 1 / 2⌋ = (1000 : ℤ) := by
        constructor
        · intro h; exact_mod_cast h
        · intro h; rw [h]; norm_num
      rw [hcast, Int.floor_eq_iff]
      constructor
      · rintro ⟨h1, _⟩
        push_cast at h1
        have hx199 : 1999 / 20 ≤ x := by linarith
        rcases le_max_iff.mp hx199 with h5 | h5
        · norm_num at h5
        · exact (le_min_iff.mp h5).2
      · intro h5
        have hx199 : 1999 / 20 ≤ x :=
          le_max_of_le_right (le_min (by norm_num) h5)
        constructor
        · push_cast; linarith
        · push_cast; linarith
    refine ⟨hcp, ?_, ?_, hiff, ?_⟩
    · rw [hcp, hround]
      exact div_nonneg (by exact_mod_cast hfl0) (by norm_num)
    · rw [hcp, hround, div_le_iff₀ (by norm_num : (0 : ℚ) < 10)]
      have : ((⌊x * 10 + 1 / 2⌋ : ℤ) : ℚ) ≤ 1000 := by exact_mod_cast hfl1000
      linarith
    · intro hc
      apply hiff.mpr
      have h1 : (1 : ℚ) ≤ c / t := (one_le_div ht).mpr hc
      have h2 : (1 : ℚ) * 100 ≤ c / t * 100 :=
        mul_le_mul_of_nonneg_right h1 (by norm_num)
      rw [hr]
      linarith

/-- C6 witness: the theorem applied at current 250, target 1000 and at the
degenerate target 0, discharging each hypothesis there. -/
theorem computeProgress_bounds_witness :
    computeProgress 250 0 = 0 ∧ computeProgress 250 1000 ≤ 100 :=
  ⟨(computeProgress_bounds 250 0).1 (by norm_num),
    ((computeProgress_bounds 250 1000).2 (by norm_num)).2.2.1⟩

/-- C7 counterexample: a connection failure rejects `fetch` with a
`TypeError` whose `message` field is truthy, so `normalizeError` takes its
object branch and the produced error's message is the exception's own
message field (here Failed to fetch), not the stringified exception
(TypeError: Failed to fetch) the claim says status-0 errors carry, and not
the Request aborted text either. -/
theorem normalizeError_typeerror_message_cex :
    requestResult (FetchOutcome.threw
        ⟨"TypeError", "Failed to fetch", 0, none, true, "TypeError: Failed to fetch"⟩) =
      Except.error { message := "Failed to fetch", status := 0, details := none } ∧
    ("Failed to fetch" : String) ≠ "TypeError: Failed to fetch" ∧
    ("Failed to fetch" : String) ≠ "Request aborted" := by
  refine ⟨rfl, by decide, by decide⟩

/-- C7 (amended): every error produced by `request` has status 0 when the
fetch call itself rejected (with a platform exception: abort or connection
TypeError) or the literal HTTP status of a non-success response, and its
message is a nonempty string. For a status-0 error the full error is
determined: the fixed `{message: "Request aborted", status: 0, details:
null}` for an abort, and `{message: e.message, status: 0, details: null}` —
the exception's own message field, e.g. Failed to fetch, not its
stringified form — for a connection TypeError; the `String(e)` branch of
`normalizeError` serves only non-object or message-less throwables, which
the platform fetch never produces. For a non-success response the message
prefers a present and nonempty server message/detail/error field with the
generic fallback naming the status, and details carries the full parsed
body whenever the body is truthy. -/
theorem requestResult_error_shape :
    (∀ (e : JsError) (err : NormError), PlatformFetchError e →
      requestResult (FetchOutcome.threw e) = Except.error err →
      err.status = 0 ∧ err.message ≠ "" ∧ err.details = none ∧
      (e.name = "AbortError" →
        err = { message := "Request aborted", status := 0, details := none }) ∧
      (e.name ≠ "AbortError" →
        err = { message := e.message, status := 0, details := none })) ∧
    (∀ (status : Nat) (data : Option BodyData) (err : NormError),
      requestResult (FetchOutcome.response status data) = Except.error err →
      resOk status = false ∧ err.status = status ∧ err.message ≠ "" ∧
      (truthyData data = true → err.details = data) ∧
      (∀ m, serverMessage data = some m → err.message = m) ∧
      (serverMessage data = none →
        err.message = "Request failed with status " ++ toString status)) := by
  constructor
  · intro e err hplat h
    have h2 : Except.error (normalizeError e) = Except.error (ε := NormError) err := h
    have herr : normalizeError e = err := Except.error.inj h2
    subst herr
    rcases hplat with habort | ⟨hname, hobj, hmsg, hstat, hdet⟩
    · unfold normalizeError
      rw [if_pos habort]
      exact ⟨rfl, by decide, rfl, fun _ => rfl, fun hne => absurd habort hne⟩
    · unfold normalizeError
      rw [if_neg hname,
        if_pos (by simp [hobj, bne_iff_ne, hmsg] : (e.isObject && e.message != "") = true)]
      refine ⟨hstat, hmsg, hdet, fun habort2 => absurd habort2 hname, fun _ => ?_⟩
      rw [hstat, hdet]
  · intro status data err h
    have h : (if resOk status then Except.ok (ε := NormError) data
        else Except.error (httpError status data)) = Except.error err := h
    by_cases hok : resOk status = true
    · rw [if_pos hok] at h
      exact absurd h (by simp)
    · have hok2 : resOk status = false := Bool.not_eq_true _ ▸ eq_false_of_ne_true hok
      rw [if_neg hok] at h
      have herr : httpError status data = err := Except.error.inj h
      subst herr
      refine ⟨hok2, rfl, ?_, ?_, ?_, ?_⟩
      · cases hsm : serverMessage data with
        | some m =>
          have hm : (httpError status data).message = m := by simp [httpError, hsm]
          rw [hm]
          exact serverMessage_ne_empty data m hsm
        | none =>
          have hm : (httpError status data).message =
              "Request failed with status " ++ toString status := by simp [httpError, hsm]
          rw [hm]
          exact statusFallback_ne_empty _
      · intro htr
        simp [httpError, htr]
      · intro m hm
        simp [httpError, hm]
      · intro hm
        simp [httpError, hm]

/-- C7 witness: the theorem applied to an aborted fetch, to a connection
TypeError, and to the spec's 500 response with body message db down,
discharging each hypothesis there. -/
theorem requestResult_error_shape_witness :
    normalizeError ⟨"AbortError", "", 0, none, true, "AbortError"⟩ =
      { message := "Request aborted", status := 0, details := none } ∧
    normalizeError ⟨"TypeError", "Failed to fetch", 0, none, true,
        "TypeError: Failed to fetch"⟩ =
      { message := "Failed to fetch", status := 0, details := none } ∧
    dbErr.status = 500 ∧ dbErr.message ≠ "" :=
  ⟨(requestResult_error_shape.1 ⟨"AbortError", "", 0, none, true, "AbortError"⟩
      (normalizeError ⟨"AbortError", "", 0, none, true, "AbortError"⟩)
      (Or.inl rfl) rfl).2.2.2.1 rfl,
    (requestResult_error_shape.1
      ⟨"TypeError", "Failed to fetch", 0, none, true, "TypeError: Failed to fetch"⟩
      (normalizeError ⟨"TypeError", "Failed to fetch", 0, none, true,
        "TypeError: Failed to fetch"⟩)
      (Or.inr ⟨by decide, rfl, by decide, rfl, rfl⟩) rfl).2.2.2.2 (by decide),
    (requestResult_error_shape.2 500 (some dbBody) dbErr rfl).2.1,
    (requestResult_error_shape.2 500 (some dbBody) dbErr rfl).2.2.1⟩

theorem fetchRun_error_state {β : Type} (k : Domain)
    (done : β → StoreState α → StoreState α) (s : StoreState α) (e : NormError) :
    (fetchRun k done s (Except.error e)).1 =
      { s with loading := Function.update s.loading k false,
               errors := Function.update s.errors k (some e) } := by
  simp [fetchRun, fetchFail, fetchStart, _setLoading, _setError, Function.update_idem]

theorem fetchRun_error_result {β : Type} (k : Domain)
    (done : β → StoreState α → StoreState α) (s : StoreState α) (e : NormError) :
    (fetchRun k done s (Except.error e)).2 = Except.error e := rfl

/-- C1 counterexample: a successful `upsertBudget` leaves the whole store
state, in particular the cached budgets collection, exactly as it was, so
the written slice is not replaced by any re-fetched server collection: two
stores that differ in their cached budgets still differ after the same
successful upsert. -/
theorem upsertBudget_no_refetch_cex :
    (upsertBudgetRun { initState Nat with budgets := [1] } (Except.ok (some 7))).1 =
      { initState Nat with budgets := [1] } ∧
    (upsertBudgetRun { initState Nat with budgets := [1] } (Except.ok (some 7))).1.budgets = [1] ∧
    (upsertBudgetRun { initState Nat with budgets := [2] } (Except.ok (some 7))).1.budgets = [2] :=
  ⟨rfl, rfl, rfl⟩

/-- C1 (amended): the six transaction and goal write operations perform the
mutating call and then unconditionally re-fetch the owning collection,
replacing that slice with the fetched result (empty when the payload is
null) and touching nothing else; `upsertBudget` alone performs only the
mutating call and returns its result with the store left untouched. -/
theorem writes_refetch (α : Type) (s : StoreState α) (r : Option α)
    (items : Option (List α)) (out : Except NormError (Option α)) :
    (createTxRun s (Except.ok r) (Except.ok items)).1 =
      { s with transactions := items.getD [] } ∧
    (updateTxRun s (Except.ok r) (Except.ok items)).1 =
      { s with transactions := items.getD [] } ∧
    (deleteTxRun s (Except.ok r) (Except.ok items)).1 =
      { s with transactions := items.getD [] } ∧
    (createGoalRun s (Except.ok r) (Except.ok items)).1 =
      { s with goals := items.getD [] } ∧
    (updateGoalRun s (Except.ok r) (Except.ok items)).1 =
      { s with goals := items.getD [] } ∧
    (deleteGoalRun s (Except.ok r) (Except.ok items)).1 =
      { s with goals := items.getD [] } ∧
    (upsertBudgetRun s out).1 = s ∧ (upsertBudgetRun s out).2 = out := by
  refine ⟨rfl, rfl, rfl, rfl, rfl, rfl, ?_, ?_⟩ <;> cases out <;> rfl

/-- C2 counterexample: a failed `createTx` re-raises the rejection to the
caller but stores nothing: the transactions error slot stays empty. -/
theorem createTx_error_not_stored_cex :
    (createTxRun (initState Nat) (Except.error dbErr) (Except.ok none)).2 =
      Except.error dbErr ∧
    (createTxRun (initState Nat) (Except.error dbErr) (Except.ok none)).1.errors
      Domain.transactions = none :=
  ⟨rfl, rfl⟩

/-- C2 (amended): every fetch-style action and both seed actions store a
failing request's normalized error under their loading/error key and
re-raise it (in particular the failed transactions fetch of the spec
scenario ends with the db-down error stored and loading cleared), while the
write actions re-raise the failure to the caller with the store left
completely unchanged, storing nothing. -/
theorem store_failure_handling (α : Type) (s : StoreState α) (e : NormError)
    (r : Option α) (listOut : Except NormError (Option (List α)))
    (txOut goalsOut : Except NormError (Option (List α))) :
    requestResult (FetchOutcome.response 500 (some dbBody)) = Except.error dbErr ∧
    dbErr = { message := "db down", status := 500, details := some dbBody } ∧
    ((fetchTransactionsRun s (Except.error dbErr)).1.errors Domain.transactions = some dbErr ∧
      (fetchTransactionsRun s (Except.error dbErr)).1.loading Domain.transactions = false) ∧
    ((fetchSummaryRun s (Except.error e)).1.errors Domain.summary = some e ∧
      (fetchSummaryRun s (Except.error e)).2 = Except.error e) ∧
    ((fetchBehaviorsRun s (Except.error e)).1.errors Domain.summary = some e ∧
      (fetchBehaviorsRun s (Except.error e)).2 = Except.error e) ∧
    ((fetchAlertsRun s (Except.error e)).1.errors Domain.alerts = some e ∧
      (fetchAlertsRun s (Except.error e)).2 = Except.error e) ∧
    ((fetchAdviceRun s (Except.error e)).1.errors Domain.advice = some e ∧
      (fetchAdviceRun s (Except.error e)).2 = Except.error e) ∧
    ((fetchGoalsPlanRun s (Except.error e)).1.errors Domain.goalsPlan = some e ∧
      (fetchGoalsPlanRun s (Except.error e)).2 = Except.error e) ∧
    ((fetchTransactionsRun s (Except.error e)).1.errors Domain.transactions = some e ∧
      (fetchTransactionsRun s (Except.error e)).2 = Except.error e) ∧
    ((fetchBudgetsRun s (Except.error e)).1.errors Domain.budgets = some e ∧
      (fetchBudgetsRun s (Except.error e)).2 = Except.error e) ∧
    ((fetchBudgetSummaryRun s (Except.error e)).1.errors Domain.budgets = some e ∧
      (fetchBudgetSummaryRun s (Except.error e)).2 = Except.error e) ∧
    ((fetchGoalsRun s (Except.error e)).1.errors Domain.goals = some e ∧
      (fetchGoalsRun s (Except.error e)).2 = Except.error e) ∧
    ((seedDemoClearRun s (Except.error e)).1.errors Domain.seed = some e ∧
      (seedDemoClearRun s (Except.error e)).2 = Except.error e) ∧
    ((seedDemoLoadRun s (Except.error e) txOut goalsOut).1.errors Domain.seed = some e ∧
      (seedDemoLoadRun s (Except.error e) txOut goalsOut).2 = Except.error e) ∧
    (createTxRun s (Except.error e) listOut = (s, Except.error e) ∧
      createTxRun s (Except.ok r) (Except.error e) = (s, Except.error e)) ∧
    (updateTxRun s (Except.error e) listOut = (s, Except.error e) ∧
      updateTxRun s (Except.ok r) (Except.error e) = (s, Except.error e)) ∧
    (deleteTxRun s (Except.error e) listOut = (s, Except.error e) ∧
      deleteTxRun s (Except.ok r) (Except.error e) = (s, Except.error e)) ∧
    (createGoalRun s (Except.error e) listOut = (s, Except.error e) ∧
      createGoalRun s (Except.ok r) (Except.error e) = (s, Except.error e)) ∧
    (updateGoalRun s (Except.error e) listOut = (s, Except.error e) ∧
      updateGoalRun s (Except.ok r) (Except.error e) = (s, Except.error e)) ∧
    (deleteGoalRun s (Except.error e) listOut = (s, Except.error e) ∧
      deleteGoalRun s (Except.ok r) (Except.error e) = (s, Except.error e)) ∧
    upsertBudgetRun s (Except.error e) = (s, Except.error e) := by
  refine ⟨rfl, by decide, ⟨?_, ?_⟩, ⟨?_, rfl⟩, ⟨?_, rfl⟩, ⟨?_, rfl⟩, ⟨?_, rfl⟩, ⟨?_, rfl⟩,
    ⟨?_, rfl⟩, ⟨?_, rfl⟩, ⟨?_, rfl⟩, ⟨?_, rfl⟩, ⟨?_, rfl⟩, ⟨?_, rfl⟩,
    ⟨rfl, rfl⟩, ⟨rfl, rfl⟩, ⟨rfl, rfl⟩, ⟨rfl, rfl⟩, ⟨rfl, rfl⟩, ⟨rfl, rfl⟩, rfl⟩ <;>
    simp [fetchSummaryRun, fetchBehaviorsRun, fetchAlertsRun, fetchAdviceRun,
      fetchGoalsPlanRun, fetchTransactionsRun, fetchBudgetsRun, fetchBudgetSummaryRun,
      fetchGoalsRun, seedDemoClearRun, seedDemoLoadRun, fetchRun, fetchFail, fetchStart,
      _setLoading, _setError]

/-- C2 witness: the theorem applied at a concrete store and error. -/
theorem store_failure_handling_witness :
    (fetchTransactionsRun (initState Nat) (Except.error dbErr)).1.errors
      Domain.transactions = some dbErr :=
  (store_failure_handling Nat (initState Nat) dbErr none (Except.ok none)
      (Except.ok none) (Except.ok none)).2.2.1.1

/-- C10: when the transport call of any fetch-style action rejects, the
final store state differs from the starting one exactly in that action's
loading flag and error slot: every cached data slice, and every other
domain's flag and slot, is exactly what it was before the action started. -/
theorem fetch_failure_preserves_cache (α : Type) (s : StoreState α) (e : NormError) :
    dataSlices (fetchTransactionsRun s (Except.error e)).1 = dataSlices s ∧
    dataSlices (fetchGoalsRun s (Except.error e)).1 = dataSlices s ∧
    (fetchSummaryRun s (Except.error e)).1 =
      { s with loading := Function.update s.loading Domain.summary false,
               errors := Function.update s.errors Domain.summary (some e) } ∧
    (fetchBehaviorsRun s (Except.error e)).1 =
      { s with loading := Function.update s.loading Domain.summary false,
               errors := Function.update s.errors Domain.summary (some e) } ∧
    (fetchAlertsRun s (Except.error e)).1 =
      { s with loading := Function.update s.loading Domain.alerts false,
               errors := Function.update s.errors Domain.alerts (some e) } ∧
    (fetchAdviceRun s (Except.error e)).1 =
      { s with loading := Function.update s.loading Domain.advice false,
               errors := Function.update s.errors Domain.advice (some e) } ∧
    (fetchGoalsPlanRun s (Except.error e)).1 =
      { s with loading := Function.update s.loading Domain.goalsPlan false,
               errors := Function.update s.errors Domain.goalsPlan (some e) } ∧
    (fetchTransactionsRun s (Except.error e)).1 =
      { s with loading := Function.update s.loading Domain.transactions false,
               errors := Function.update s.errors Domain.transactions (some e) } ∧
    (fetchBudgetsRun s (Except.error e)).1 =
      { s with loading := Function.update s.loading Domain.budgets false,
               errors := Function.update s.errors Domain.budgets (some e) } ∧
    (fetchBudgetSummaryRun s (Except.error e)).1 =
      { s with loading := Function.update s.loading Domain.budgets false,
               errors := Function.update s.errors Domain.budgets (some e) } ∧
    (fetchGoalsRun s (Except.error e)).1 =
      { s with loading := Function.update s.loading Domain.goals false,
               errors := Function.update s.errors Domain.goals (some e) } := by
  refine ⟨?_, ?_, fetchRun_error_state .summary fetchSummaryDone s e,
    fetchRun_error_state .summary fetchBehaviorsDone s e,
    fetchRun_error_state .alerts fetchAlertsDone s e,
    fetchRun_error_state .advice fetchAdviceDone s e,
    fetchRun_error_state .goalsPlan fetchGoalsPlanDone s e,
    fetchRun_error_state .transactions fetchTransactionsDone s e,
    fetchRun_error_state .budgets fetchBudgetsDone s e,
    fetchRun_error_state .budgets fetchBudgetSummaryDone s e,
    fetchRun_error_state .goals fetchGoalsDone s e⟩ <;> rfl

/-- C4 counterexample: `fetchBehaviors` does not use a dedicated behaviors
slot: its failure lands in the summary error slot, and `fetchBudgetSummary`
failure lands in the budgets slot; the store has no behaviors,
budgetSummary or savingsAdvice loading/error keys at all, only the eight
enumerated ones. -/
theorem fetchBehaviors_shares_summary_slot_cex :
    (fetchBehaviorsRun (initState Nat) (Except.error dbErr)).1.errors Domain.summary =
      some dbErr ∧
    (fetchBudgetSummaryRun (initState Nat) (Except.error dbErr)).1.errors Domain.budgets =
      some dbErr ∧
    (∀ d : Domain, d = Domain.summary ∨ d = Domain.transactions ∨ d = Domain.budgets ∨
      d = Domain.goals ∨ d = Domain.alerts ∨ d = Domain.advice ∨ d = Domain.goalsPlan ∨
      d = Domain.seed) := by
  refine ⟨?_, ?_, by decide⟩ <;>
    simp [fetchBehaviorsRun, fetchBudgetSummaryRun, fetchRun, fetchFail, fetchStart,
      _setLoading, _setError]

/-- C4 (amended): each fetch-style action uses one fixed loading/error key —
its own domain's, except that `fetchBehaviors` shares the summary key and
`fetchBudgetSummary` the budgets key — and its final state differs from the
starting one only in that key's flag and slot and, on success, its own data
slice: the flags, slots and cached values of every other domain are left
unchanged, as the full-state equations for both outcomes of all nine
actions show. -/
theorem fetch_actions_frame (α : Type) (s : StoreState α) (e : NormError)
    (d : Option α) (l : Option (List α)) :
    (fetchSummaryRun s (Except.ok d)).1 =
      { s with summary := d,
               loading := Function.update s.loading Domain.summary false,
               errors := Function.update s.errors Domain.summary none } ∧
    (fetchBehaviorsRun s (Except.ok d)).1 =
      { s with behaviors := d,
               loading := Function.update s.loading Domain.summary false,
               errors := Function.update s.errors Domain.summary none } ∧
    (fetchAlertsRun s (Except.ok d)).1 =
      { s with alerts := d,
               loading := Function.update s.loading Domain.alerts false,
               errors := Function.update s.errors Domain.alerts none } ∧
    (fetchAdviceRun s (Except.ok d)).1 =
      { s with savingsAdvice := d,
               loading := Function.update s.loading Domain.advice false,
               errors := Function.update s.errors Domain.advice none } ∧
    (fetchGoalsPlanRun s (Except.ok d)).1 =
      { s with goalsPlan := d,
               loading := Function.update s.loading Domain.goalsPlan false,
               errors := Function.update s.errors Domain.goalsPlan none } ∧
    (fetchTransactionsRun s (Except.ok l)).1 =
      { s with transactions := l.getD [],
               loading := Function.update s.loading Domain.transactions false,
               errors := Function.update s.errors Domain.transactions none } ∧
    (fetchBudgetsRun s (Except.ok l)).1 =
      { s with budgets := l.getD [],
               loading := Function.update s.loading Domain.budgets false,
               errors := Function.update s.errors Domain.budgets none } ∧
    (fetchBudgetSummaryRun s (Except.ok d)).1 =
      { s with budgetSummary := d,
               loading := Function.update s.loading Domain.budgets false,
               errors := Function.update s.errors Domain.budgets none } ∧
    (fetchGoalsRun s (Except.ok l)).1 =
      { s with goals := l.getD [],
               loading := Function.update s.loading Domain.goals false,
               errors := Function.update s.errors Domain.goals none } ∧
    (fetchSummaryRun s (Except.error e)).1 =
      { s with loading := Function.update s.loading Domain.summary false,
               errors := Function.update s.errors Domain.summary (some e) } ∧
    (fetchBehaviorsRun s (Except.error e)).1 =
      { s with loading := Function.update s.loading Domain.summary false,
               errors := Function.update s.errors Domain.summary (some e) } ∧
    (fetchAlertsRun s (Except.error e)).1 =
      { s with loading := Function.update s.loading Domain.alerts false,
               errors := Function.update s.errors Domain.alerts (some e) } ∧
    (fetchAdviceRun s (Except.error e)).1 =
      { s with loading := Function.update s.loading Domain.advice false,
               errors := Function.update s.errors Domain.advice (some e) } ∧
    (fetchGoalsPlanRun s (Except.error e)).1 =
      { s with loading := Function.update s.loading Domain.goalsPlan false,
               errors := Function.update s.errors Domain.goalsPlan (some e) } ∧
    (fetchTransactionsRun s (Except.error e)).1 =
      { s with loading := Function.update s.loading Domain.transactions false,
               errors := Function.update s.errors Domain.transactions (some e) } ∧
    (fetchBudgetsRun s (Except.error e)).1 =
      { s with loading := Function.update s.loading Domain.budgets false,
               errors := Function.update s.errors Domain.budgets (some e) } ∧
    (fetchBudgetSummaryRun s (Except.error e)).1 =
      { s with loading := Function.update s.loading Domain.budgets false,
               errors := Function.update s.errors Domain.budgets (some e) } ∧
    (fetchGoalsRun s (Except.error e)).1 =
      { s with loading := Function.update s.loading Domain.goals false,
               errors := Function.update s.errors Domain.goals (some e) } := by
  refine ⟨?_, ?_, ?_, ?_, ?_, ?_, ?_, ?_, ?_,
    fetchRun_error_state .summary fetchSummaryDone s e,
    fetchRun_error_state .summary fetchBehaviorsDone s e,
    fetchRun_error_state .alerts fetchAlertsDone s e,
    fetchRun_error_state .advice fetchAdviceDone s e,
    fetchRun_error_state .goalsPlan fetchGoalsPlanDone s e,
    fetchRun_error_state .transactions fetchTransactionsDone s e,
    fetchRun_error_state .budgets fetchBudgetsDone s e,
    fetchRun_error_state .budgets fetchBudgetSummaryDone s e,
    fetchRun_error_state .goals fetchGoalsDone s e⟩ <;>
    simp [fetchSummaryRun, fetchBehaviorsRun, fetchAlertsRun, fetchAdviceRun,
      fetchGoalsPlanRun, fetchTransactionsRun, fetchBudgetsRun, fetchBudgetSummaryRun,
      fetchGoalsRun, fetchRun, fetchSummaryDone, fetchBehaviorsDone, fetchAlertsDone,
      fetchAdviceDone, fetchGoalsPlanDone, fetchTransactionsDone, fetchBudgetsDone,
      fetchBudgetSummaryDone, fetchGoalsDone, fetchStart, _setLoading, _setError,
      Function.update_idem]

theorem exclusive_init (α : Type) : LoadErrExclusive (initState α) :=
  fun _ h => Bool.noConfusion h

theorem exclusive_fetchStart (k : Domain) (s : StoreState α)
    (h : LoadErrExclusive s) : LoadErrExclusive (fetchStart k s) := by
  intro d hd
  by_cases hdk : d = k
  · subst hdk
    simp [fetchStart, _setError, _setLoading]
  · have herr : (fetchStart k s).errors d = s.errors d := by
      simp [fetchStart, _setError, _setLoading, Function.update_noteq hdk]
    have hload : (fetchStart k s).loading d = s.loading d := by
      simp [fetchStart, _setError, _setLoading, Function.update_noteq hdk]
    rw [herr]
    exact h d (hload ▸ hd)

theorem exclusive_fetchFail (k : Domain) (e : NormError) (s : StoreState α)
    (h : LoadErrExclusive s) : LoadErrExclusive (fetchFail k e s) := by
  intro d hd
  by_cases hdk : d = k
  · subst hdk
    simp [fetchFail, _setError, _setLoading] at hd
  · have herr : (fetchFail k e s).errors d = s.errors d := by
      simp [fetchFail, _setError, _setLoading, Function.update_noteq hdk]
    have hload : (fetchFail k e s).loading d = s.loading d := by
      simp [fetchFail, _setError, _setLoading, Function.update_noteq hdk]
    rw [herr]
    exact h d (hload ▸ hd)

theorem exclusive_setLoadingFalse (k : Domain) (s : StoreState α)
    (h : LoadErrExclusive s) : LoadErrExclusive (_setLoading s k false) := by
  intro d hd
  by_cases hdk : d = k
  · subst hdk
    simp [_setLoading] at hd
  · have hload : (_setLoading s k false).loading d = s.loading d := by
      simp [_setLoading, Function.update_noteq hdk]
    exact h d (hload ▸ hd)

theorem exclusive_step (s s' : StoreState α) (h : LoadErrExclusive s)
    (hs : Step α s s') : LoadErrExclusive s' := by
  cases hs <;>
    first
      | exact exclusive_fetchStart _ _ h
      | exact exclusive_fetchFail _ _ _ h
      | exact exclusive_setLoadingFalse _ _ h
      | exact h

/-- C3: at every observable store state — the states at event-loop yield
points, reachable by any interleaving of the store actions' atomic
synchronous segments — a domain whose loading flag is set has an empty
error slot; a failed fetch ends with its error stored and its loading flag
cleared, and a successful fetch ends with the error slot empty and the
loading flag cleared, for the loading/error key each action actually
uses. -/
theorem loading_error_invariant :
    (∀ (α : Type) (s : StoreState α), Reachable s → LoadErrExclusive s) ∧
    (∀ (α : Type) (k : Domain) (e : NormError) (s : StoreState α),
      (fetchFail k e (fetchStart k s)).errors k = some e ∧
      (fetchFail k e (fetchStart k s)).loading k = false) ∧
    (∀ (α : Type) (s : StoreState α) (d : Option α),
      (fetchSummaryRun s (Except.ok d)).1.errors Domain.summary = none ∧
      (fetchSummaryRun s (Except.ok d)).1.loading Domain.summary = false ∧
      (fetchBehaviorsRun s (Except.ok d)).1.errors Domain.summary = none ∧
      (fetchBehaviorsRun s (Except.ok d)).1.loading Domain.summary = false ∧
      (fetchAlertsRun s (Except.ok d)).1.errors Domain.alerts = none ∧
      (fetchAlertsRun s (Except.ok d)).1.loading Domain.alerts = false ∧
      (fetchAdviceRun s (Except.ok d)).1.errors Domain.advice = none ∧
      (fetchAdviceRun s (Except.ok d)).1.loading Domain.advice = false ∧
      (fetchGoalsPlanRun s (Except.ok d)).1.errors Domain.goalsPlan = none ∧
      (fetchGoalsPlanRun s (Except.ok d)).1.loading Domain.goalsPlan = false ∧
      (fetchBudgetSummaryRun s (Except.ok d)).1.errors Domain.budgets = none ∧
      (fetchBudgetSummaryRun s (Except.ok d)).1.loading Domain.budgets = false) ∧
    (∀ (α : Type) (s : StoreState α) (l : Option (List α)),
      (fetchTransactionsRun s (Except.ok l)).1.errors Domain.transactions = none ∧
      (fetchTransactionsRun s (Except.ok l)).1.loading Domain.transactions = false ∧
      (fetchBudgetsRun s (Except.ok l)).1.errors Domain.budgets = none ∧
      (fetchBudgetsRun s (Except.ok l)).1.loading Domain.budgets = false ∧
      (fetchGoalsRun s (Except.ok l)).1.errors Domain.goals = none ∧
      (fetchGoalsRun s (Except.ok l)).1.loading Domain.goals = false) := by
  refine ⟨?_, ?_, ?_, ?_⟩
  · intro α s h
    have h2 : Relation.ReflTransGen (Step α) (initState α) s := h
    clear h
    induction h2 with
    | refl => exact exclusive_init α
    | tail _ hstep ih => exact exclusive_step _ _ ih hstep
  · intro α k e s
    constructor <;> simp [fetchFail, fetchStart, _setLoading, _setError]
  · intro α s d
    refine ⟨?_, ?_, ?_, ?_, ?_, ?_, ?_, ?_, ?_, ?_, ?_, ?_⟩ <;>
      simp [fetchSummaryRun, fetchBehaviorsRun, fetchAlertsRun, fetchAdviceRun,
        fetchGoalsPlanRun, fetchBudgetSummaryRun, fetchRun, fetchSummaryDone,
        fetchBehaviorsDone, fetchAlertsDone, fetchAdviceDone, fetchGoalsPlanDone,
        fetchBudgetSummaryDone, fetchStart, _setLoading, _setError]
  · intro α s l
    refine ⟨?_, ?_, ?_, ?_, ?_, ?_⟩ <;>
      simp [fetchTransactionsRun, fetchBudgetsRun, fetchGoalsRun, fetchRun,
        fetchTransactionsDone, fetchBudgetsDone, fetchGoalsDone, fetchStart,
        _setLoading, _setError]

/-- C3 witness: the theorem applied to the concrete state reached by
starting a transactions fetch from the initial store and failing it with
the db-down error. -/
theorem loading_error_invariant_witness :
    LoadErrExclusive (fetchFail Domain.transactions dbErr
      (fetchStart Domain.transactions (initState Nat))) ∧
    (fetchFail Domain.transactions dbErr (fetchStart Domain.transactions
      (initState Nat))).errors Domain.transactions = some dbErr :=
  ⟨loading_error_invariant.1 Nat _
      (Relation.ReflTransGen.tail
        (Relation.ReflTransGen.tail Relation.ReflTransGen.refl
          (Step.fetchTransactionsStart (initState Nat)))
        (Step.fetchTransactionsErr dbErr
          (fetchStart Domain.transactions (initState Nat)))),
    (loading_error_invariant.2.1 Nat Domain.transactions dbErr (initState Nat)).1⟩

end FinanceSpec
